import Mathlib

/-!
Shallow embedding of the coordinate-column inference and validation engine
of `src/app.py` (John Snow cholera map).

Modelling conventions:
* A raw table cell is represented by the outcome of pandas numeric coercion
  `pd.to_numeric(x, errors="coerce")`: `some q` when the cell coerces to the
  number `q`, `none` when it coerces to NaN (missing or unparseable).  The
  only consumers of cell contents in the engine are `pd.to_numeric`,
  `between`, `mean` and `dropna`, so this abstraction loses nothing.
* Floats are modelled by `ℚ` (the threshold `0.6` becomes `3/5`).
* `df[name]` raises in the numeric stage when the label `name` is duplicated
  (pandas then yields a DataFrame and `pd.to_numeric` raises `TypeError`);
  column selection is therefore modelled as an `Option`, `none` standing for
  the exception that the `except Exception: pass` of `find_latlon_cols`
  swallows.
-/

/-- A table cell, by the outcome of `pd.to_numeric(x, errors="coerce")`. -/
abbrev Cell := Option ℚ

/-- A table (`pd.DataFrame`): ordered named columns of cells. -/
abbrev Table := List (String × List Cell)

namespace App

/-- `df.columns`, in order. -/
def columns (df : Table) : List String := df.map Prod.fst

/-- `df[name]` as used by the numeric stage: the unique column labelled
`name`; `none` models the exception raised when the label is missing or
duplicated (duplicated labels make `df[name]` a DataFrame, on which
`pd.to_numeric` raises). -/
def getCol (df : Table) (name : String) : Option (List Cell) :=
  match df.filter (fun c => c.1 == name) with
  | [e] => some e.2
  | _ => none

/-- Strip leading and trailing whitespace from a character list
(Python's `str.strip()`). -/
def trimChars (l : List Char) : List Char :=
  ((l.dropWhile Char.isWhitespace).reverse.dropWhile Char.isWhitespace).reverse

/-- Header normalisation of line 20: `c.lower().strip()` (the headers in
play are ASCII, so per-character lower-casing models Python's `lower`). -/
def normHeader (s : String) : String :=
  ⟨trimChars (s.data.map Char.toLower)⟩

/-- The exact latitude keyword set of line 24. -/
def latKeywords : List String :=
  ["lat", "latitude", "y", "y_coord", "ycoord", "y coordinate", "y_coordinate"]

/-- The exact longitude keyword set of line 26. -/
def lonKeywords : List String :=
  ["lon", "lng", "long", "longitude", "x", "x_coord", "xcoord", "x coordinate", "x_coordinate"]

/-- Substring containment on character lists (Python's `needle in hay`). -/
def listContainsSub (n : List Char) : List Char → Bool
  | [] => n.isEmpty
  | c :: rest => n.isPrefixOf (c :: rest) || listContainsSub n rest

/-- Python's `needle in hay` for strings. -/
def strContains (hay needle : String) : Bool :=
  listContainsSub needle.toList hay.toList

/-- The stage-1 loop of lines 23-27: one pass over the headers that appends
each header whose normalisation is in a keyword set to that role's list. -/
def detectLoop : List String → List String × List String
  | [] => ([], [])
  | h :: t =>
    let r := detectLoop t
    ((if latKeywords.contains (normHeader h) then [h] else []) ++ r.1,
     (if lonKeywords.contains (normHeader h) then [h] else []) ++ r.2)

/-- The latitude fallback comprehension of line 31. -/
def fallbackLatCands (hs : List String) : List String :=
  hs.filter (fun h =>
    strContains (normHeader h) "lat" || strContains (normHeader h) "y coordinate")

/-- The longitude fallback comprehension of line 33. -/
def fallbackLonCands (hs : List String) : List String :=
  hs.filter (fun h =>
    strContains (normHeader h) "lon" || strContains (normHeader h) "lng" ||
    strContains (normHeader h) "long" || strContains (normHeader h) "x coordinate")

/-- Candidate detection, lines 20-33: the stage-1 loop, then for each role
whose list is empty (Python falsiness of `[]`) the substring fallback. -/
def detectCandidates (hs : List String) : List String × List String :=
  let p := detectLoop hs
  (if p.1.isEmpty then fallbackLatCands hs else p.1,
   if p.2.isEmpty then fallbackLonCands hs else p.2)

/-- `pd.to_numeric(col, errors="coerce").dropna()`: the non-missing values. -/
def dropna (col : List Cell) : List ℚ := col.filterMap id

/-- `vals.between(lo, hi).mean()` on a dropna-ed series: the fraction of
values inside the closed interval `[lo, hi]` (written with `mkRat`, which the
kernel can evaluate; `fracBetween_eq_div` relates it to `/`). -/
def fracBetween (vals : List ℚ) (lo hi : ℚ) : ℚ :=
  mkRat ((vals.filter (fun v => decide (lo ≤ v) && decide (v ≤ hi))).length : ℤ)
    vals.length

/-- The threshold `0.6` of lines 49 and 148. -/
def threshold : ℚ := mkRat 3 5

/-- The swap rule of line 49, as a predicate on the two latitude-range
fractions. -/
def swapRule (lat_in_lat_range lon_in_lat_range : ℚ) : Bool :=
  (decide (lat_in_lat_range < threshold) && decide (lon_in_lat_range > threshold)) ||
  (decide (lat_in_lat_range < lon_in_lat_range) && decide (lon_in_lat_range > threshold))

/-- Lines 43-50 given the two selected columns: if either dropna-ed column is
empty the guard fails and control falls through to `return lat, lon`;
otherwise the four range fractions are computed (two of them purely
diagnostic) and the swap rule decides the returned pair. -/
def swapDecision (latRaw lonRaw : List Cell) (lat lon : String) :
    Option String × Option String :=
  let lat_vals := dropna latRaw
  let lon_vals := dropna lonRaw
  if lat_vals.isEmpty || lon_vals.isEmpty then (some lat, some lon)
  else
    let lat_in_lat_range := fracBetween lat_vals (-90) 90
    let lon_in_lon_range := fracBetween lon_vals (-180) 180
    let lat_in_lon_range := fracBetween lat_vals (-180) 180
    let lon_in_lat_range := fracBetween lon_vals (-90) 90
    if swapRule lat_in_lat_range lon_in_lat_range then (some lon, some lat)
    else (some lat, some lon)

/-- The numeric stage, lines 40-52: selecting either column raises (`none`)
exactly when its label is missing or duplicated, in which case the `except`
branch is taken; otherwise the stage returns the decided pair. -/
def swapStage (df : Table) (lat lon : String) :
    Option (Option String × Option String) :=
  match getCol df lat, getCol df lon with
  | some latRaw, some lonRaw => some (swapDecision latRaw lonRaw lat lon)
  | _, _ => none

/-- The dispatch of lines 35-54 after the candidate lists are known: Python's
`if lat and lon` (both non-`None` and non-empty strings) gates the numeric
stage, whose exception falls back to `return lat, lon`. -/
def findFromCands (df : Table) : Option String → Option String → Option String × Option String
  | some lat, some lon =>
    if lat.isEmpty || lon.isEmpty then (some lat, some lon)
    else (swapStage df lat lon).getD (some lat, some lon)
  | la, lo => (la, lo)

/-- `find_latlon_cols(df)`, lines 12-54. -/
def find_latlon_cols (df : Table) : Option String × Option String :=
  findFromCands df (detectCandidates (columns df)).1.head?
    (detectCandidates (columns df)).2.head?

/-- The normalizer, lines 157-160: both coordinate columns are coerced to
numeric and `dropna(subset=[d_lat, d_lon])` keeps exactly the rows where both
cells coerced, with their coerced values verbatim.  No range check occurs. -/
def normalizePoints (latCol lonCol : List Cell) : List (ℚ × ℚ) :=
  (latCol.zip lonCol).filterMap (fun p =>
    match p with
    | (some a, some b) => some (a, b)
    | _ => none)

/-- The number of rows that `dropna(subset=[d_lat, d_lon])` excludes. -/
def droppedRows (latCol lonCol : List Cell) : Nat :=
  ((latCol.zip lonCol).filter (fun p => p.1.isNone || p.2.isNone)).length

/-- Rational addition written with `mkRat` so the kernel can evaluate it;
`qAdd_eq_add` identifies it with `+`. -/
def qAdd (a b : ℚ) : ℚ := mkRat (a.num * b.den + b.num * a.den) (a.den * b.den)

/-- Sum of a list of rationals via `qAdd`. -/
def qSum : List ℚ → ℚ
  | [] => 0
  | v :: rest => qAdd v (qSum rest)

/-- Absolute value on `ℚ`, kernel-evaluable; `qAbs_eq_abs`. -/
def qAbs (q : ℚ) : ℚ := if q < 0 then -q else q

/-- Division of a rational by a natural, kernel-evaluable; `divByNat_eq`. -/
def divByNat (q : ℚ) (n : Nat) : ℚ := mkRat q.num (q.den * n)

/-- `series.between(lo, hi).mean()` on a coerced series that still contains
NaN (lines 142-143 and 148 do not `dropna` first): `between` is `False` at
NaN, and `mean` of the boolean series averages over all rows. -/
def fracBetweenAll (col : List Cell) (lo hi : ℚ) : ℚ :=
  mkRat ((col.filter (fun c =>
    match c with
    | some v => decide (lo ≤ v) && decide (v ≤ hi)
    | none => false)).length : ℤ) col.length

/-- `series.abs().mean()` on a coerced series: pandas `mean` skips NaN, so
this is the mean of the absolute values of the non-missing entries. -/
def absMean (col : List Cell) : ℚ :=
  divByNat (qSum ((dropna col).map qAbs)) (dropna col).length

/-- The `suspect_swap` hint of line 148, as a function of the two detected
coordinate columns (coerced, NaN kept):
`(frac_lat_ok < 0.6 and frac_lon_ok < 0.6) or
 (dlat_vals.abs().mean() > dlon_vals.abs().mean() and
  dlon_vals.between(-90, 90).mean() > 0.6)`. -/
def suspect_swap (latCol lonCol : List Cell) : Bool :=
  (decide (fracBetweenAll latCol (-90) 90 < threshold) &&
   decide (fracBetweenAll lonCol (-180) 180 < threshold)) ||
  (decide (absMean latCol > absMean lonCol) &&
   decide (fracBetweenAll lonCol (-90) 90 > threshold))

/-- The manual flip of lines 152-155: when the checkbox is set, the
assignment's two column names are exchanged (`d_lat, d_lon = d_lon, d_lat`);
otherwise the assignment is untouched. -/
def applyFlip (flip : Bool) (assign : String × String) : String × String :=
  if flip then (assign.2, assign.1) else assign

/-- Python's `", ".join(headers)`. -/
def joinComma : List String → String
  | [] => ""
  | [s] => s
  | s :: rest => s ++ ", " ++ joinComma rest

/-- The error text of lines 117-121, a fixed template around the joined
header list. -/
def missingColsMsg (hs : List String) : String :=
  "Death CSV: Could not find latitude/longitude columns.\n" ++
  "Make sure columns are named like: lat/latitude/X coordinate/Y coordinate/longitude.\n\n" ++
  "Detected columns: " ++ joinComma hs

/-- Lines 115-122: detection for the death table and the missing-column
error path (`if not d_lat or not d_lon` is Python falsiness). -/
def deathDetect (df : Table) : Except String (String × String) :=
  match find_latlon_cols df with
  | (some a, some b) =>
    if a.isEmpty || b.isEmpty then Except.error (missingColsMsg (columns df))
    else Except.ok (a, b)
  | _ => Except.error (missingColsMsg (columns df))

/-- `detect_candidates` as §4.1 of the spec words it: per role, Stage 1
filters the headers whose normalised form is exactly in that role's fixed
keyword set (in table column order); Stage 2, engaged only when Stage 1
produced zero candidates for the role, filters by substring containment of
that role's fallback keywords. -/
def detectCandidatesSpec (hs : List String) : List String × List String :=
  let latExact := hs.filter (fun h => latKeywords.contains (normHeader h))
  let lonExact := hs.filter (fun h => lonKeywords.contains (normHeader h))
  let latStage2 := hs.filter (fun h =>
    strContains (normHeader h) "lat" || strContains (normHeader h) "y coordinate")
  let lonStage2 := hs.filter (fun h =>
    strContains (normHeader h) "lon" || strContains (normHeader h) "lng" ||
    strContains (normHeader h) "long" || strContains (normHeader h) "x coordinate")
  (if latExact.isEmpty then latStage2 else latExact,
   if lonExact.isEmpty then lonStage2 else lonExact)

end App

namespace App

theorem qAdd_eq_add (a b : ℚ) : qAdd a b = a + b := by
  have ha : (a.den : ℚ) ≠ 0 := Nat.cast_ne_zero.mpr a.den_nz
  have hb : (b.den : ℚ) ≠ 0 := Nat.cast_ne_zero.mpr b.den_nz
  rw [qAdd, Rat.mkRat_eq_div]
  push_cast
  conv_rhs => rw [← Rat.num_div_den a, ← Rat.num_div_den b, div_add_div _ _ ha hb]
  ring_nf

theorem qSum_eq_sum (l : List ℚ) : qSum l = l.sum := by
  induction l with
  | nil => rfl
  | cons v rest ih => rw [qSum, qAdd_eq_add, ih, List.sum_cons]

theorem qAbs_eq_abs (q : ℚ) : qAbs q = |q| := by
  rw [qAbs]
  split
  · exact (abs_of_neg (by assumption)).symm
  · exact (abs_of_nonneg (le_of_not_lt (by assumption))).symm

theorem divByNat_eq (q : ℚ) (n : Nat) : divByNat q n = q / n := by
  rw [divByNat, Rat.mkRat_eq_div]
  push_cast
  conv_rhs => rw [← Rat.num_div_den q]
  rw [div_div]

theorem fracBetween_eq_div (vals : List ℚ) (lo hi : ℚ) :
    fracBetween vals lo hi =
      ((vals.filter (fun v => decide (lo ≤ v) && decide (v ≤ hi))).length : ℚ) /
        (vals.length : ℚ) := by
  rw [fracBetween, Rat.mkRat_eq_div]
  push_cast
  rfl

theorem detectLoop_eq (hs : List String) :
    detectLoop hs = (hs.filter (fun h => latKeywords.contains (normHeader h)),
                     hs.filter (fun h => lonKeywords.contains (normHeader h))) := by
  induction hs with
  | nil => rfl
  | cons h t ih =>
    simp only [detectLoop, ih, List.filter_cons, Prod.mk.injEq]
    refine ⟨?_, ?_⟩ <;> split <;> simp_all

theorem mem_of_head_eq {α : Type} {l : List α} {a : α} (h : l.head? = some a) :
    a ∈ l := by
  cases l with
  | nil => cases h
  | cons x t =>
    simp only [List.head?] at h
    cases h
    exact List.mem_cons_self _ _

theorem not_isEmpty_of_mem_latCands {hs : List String} {x : String}
    (hx : x ∈ (detectCandidates hs).1) : x.isEmpty = false := by
  cases hb : x.isEmpty
  · rfl
  · exfalso
    have hxe : x = "" := (String.isEmpty_iff x).mp hb
    subst hxe
    simp only [detectCandidates, detectLoop_eq] at hx
    split at hx
    · simp only [fallbackLatCands, List.mem_filter] at hx
      exact absurd hx.2 (by decide)
    · simp only [List.mem_filter] at hx
      exact absurd hx.2 (by decide)

theorem not_isEmpty_of_mem_lonCands {hs : List String} {x : String}
    (hx : x ∈ (detectCandidates hs).2) : x.isEmpty = false := by
  cases hb : x.isEmpty
  · rfl
  · exfalso
    have hxe : x = "" := (String.isEmpty_iff x).mp hb
    subst hxe
    simp only [detectCandidates, detectLoop_eq] at hx
    split at hx
    · simp only [fallbackLonCands, List.mem_filter] at hx
      exact absurd hx.2 (by decide)
    · simp only [List.mem_filter] at hx
      exact absurd hx.2 (by decide)

theorem find_eq_of_swapStage {df : Table} {lat lon : String}
    {r : Option String × Option String}
    (h1 : (detectCandidates (columns df)).1.head? = some lat)
    (h2 : (detectCandidates (columns df)).2.head? = some lon)
    (hs : swapStage df lat lon = some r) : find_latlon_cols df = r := by
  have hl : lat.isEmpty = false := not_isEmpty_of_mem_latCands (mem_of_head_eq h1)
  have ho : lon.isEmpty = false := not_isEmpty_of_mem_lonCands (mem_of_head_eq h2)
  simp only [find_latlon_cols]
  rw [h1, h2]
  simp [findFromCands, hl, ho, hs]

theorem find_eq_naive_of_stage_none {df : Table} {lat lon : String}
    (h1 : (detectCandidates (columns df)).1.head? = some lat)
    (h2 : (detectCandidates (columns df)).2.head? = some lon)
    (hs : swapStage df lat lon = none) :
    find_latlon_cols df = (some lat, some lon) := by
  have hl : lat.isEmpty = false := not_isEmpty_of_mem_latCands (mem_of_head_eq h1)
  have ho : lon.isEmpty = false := not_isEmpty_of_mem_lonCands (mem_of_head_eq h2)
  simp only [find_latlon_cols]
  rw [h1, h2]
  simp [findFromCands, hl, ho, hs]

theorem isPrefixOf_append_self (l t : List Char) : l.isPrefixOf (l ++ t) = true := by
  induction l with
  | nil => simp [List.isPrefixOf]
  | cons c cs ih => simp [List.isPrefixOf, ih]

theorem listContainsSub_of_isPrefixOf {n h : List Char} (hp : n.isPrefixOf h = true) :
    listContainsSub n h = true := by
  cases h with
  | nil =>
    cases n with
    | nil => rfl
    | cons c t => simp [List.isPrefixOf] at hp
  | cons c t => simp [listContainsSub, hp]

theorem listContainsSub_append {n t : List Char} (s : List Char)
    (h : listContainsSub n t = true) : listContainsSub n (s ++ t) = true := by
  induction s with
  | nil => simpa using h
  | cons c cs ih => simp [listContainsSub, ih]

theorem strContains_append_right (s t n : String) (h : strContains t n = true) :
    strContains (s ++ t) n = true := by
  simp only [strContains, String.toList, String.data_append] at h ⊢
  exact listContainsSub_append _ h

theorem strContains_append_left (s t : String) : strContains (s ++ t) s = true := by
  simp only [strContains, String.toList, String.data_append]
  exact listContainsSub_of_isPrefixOf (isPrefixOf_append_self _ _)

theorem mem_joinComma {h : String} {hs : List String} (hm : h ∈ hs) :
    strContains (joinComma hs) h = true := by
  induction hs with
  | nil => cases hm
  | cons s rest ih =>
    rcases List.mem_cons.mp hm with rfl | hm2
    · cases rest with
      | nil =>
        simp only [joinComma, strContains, String.toList]
        have hp := isPrefixOf_append_self h.data []
        rw [List.append_nil] at hp
        exact listContainsSub_of_isPrefixOf hp
      | cons r rs =>
        simp only [joinComma, strContains, String.toList, String.data_append,
          List.append_assoc]
        exact listContainsSub_of_isPrefixOf (isPrefixOf_append_self _ _)
    · cases rest with
      | nil => cases hm2
      | cons r rs =>
        have h2 := ih hm2
        simp only [strContains, String.toList] at h2
        simp only [joinComma, strContains, String.toList, String.data_append,
          List.append_assoc]
        exact listContainsSub_append _ (listContainsSub_append _ h2)

theorem missingColsMsg_contains {h : String} {hs : List String} (hm : h ∈ hs) :
    strContains (missingColsMsg hs) h = true := by
  have h2 := mem_joinComma hm
  simp only [strContains, String.toList] at h2
  simp only [missingColsMsg, strContains, String.toList, String.data_append,
    List.append_assoc]
  exact listContainsSub_append _ (listContainsSub_append _ (listContainsSub_append _ h2))

/-- C1 (counterexample): on the table `[("lat", [0]), ("lon", [200])]` the
resolver assigns `("lat", "lon")` unswapped, and normalization keeps the row
`(0, 200)` although its longitude `200` lies outside `[-180, 180]`: lines
157-160 drop only coercion failures, never out-of-range rows. -/
theorem c1_range_invariant_cex :
    find_latlon_cols [("lat", [some 0]), ("lon", [some 200])] =
      (some "lat", some "lon") ∧
    normalizePoints [some 0] [some 200] = [(0, 200)] ∧
    ¬((200 : ℚ) ≤ 180) :=
  ⟨by decide, by decide, by decide⟩

/-- C1 (amended): every point surviving normalization takes its coordinates
verbatim — not coerced to a default and not clamped — from a row whose two
coordinate cells both coerced; but no range filtering occurs, so the output
values are unconstrained. -/
theorem c1_points_verbatim {latCol lonCol : List Cell} {p : ℚ × ℚ}
    (hp : p ∈ normalizePoints latCol lonCol) :
    ∃ i : Nat, latCol[i]? = some (some p.1) ∧ lonCol[i]? = some (some p.2) := by
  induction latCol generalizing lonCol with
  | nil => simp [normalizePoints] at hp
  | cons a as ih =>
    cases lonCol with
    | nil => simp [normalizePoints] at hp
    | cons b bs =>
      rcases a with _ | x
      · rw [show normalizePoints (none :: as) (b :: bs) = normalizePoints as bs
            from rfl] at hp
        obtain ⟨i, g1, g2⟩ := ih hp
        exact ⟨i + 1, by simpa using g1, by simpa using g2⟩
      · rcases b with _ | y
        · rw [show normalizePoints (some x :: as) (none :: bs) = normalizePoints as bs
              from rfl] at hp
          obtain ⟨i, g1, g2⟩ := ih hp
          exact ⟨i + 1, by simpa using g1, by simpa using g2⟩
        · rw [show normalizePoints (some x :: as) (some y :: bs) =
              (x, y) :: normalizePoints as bs from rfl] at hp
          rcases List.mem_cons.mp hp with rfl | hp2
          · exact ⟨0, by simp, by simp⟩
          · obtain ⟨i, g1, g2⟩ := ih hp2
            exact ⟨i + 1, by simpa using g1, by simpa using g2⟩

/-- C1 witness: instantiates the amended theorem at the out-of-range point
`(0, 200)` of the counterexample table. -/
theorem c1_points_verbatim_witness :
    (((0 : ℚ), (200 : ℚ)) ∈ normalizePoints [some 0] [some 200]) ∧
    ∃ i : Nat, ([some (0 : ℚ)] : List Cell)[i]? = some (some (0 : ℚ)) ∧
      ([some (200 : ℚ)] : List Cell)[i]? = some (some (200 : ℚ)) :=
  ⟨by decide, c1_points_verbatim (p := (0, 200)) (by decide)⟩

/-- C2 (counterexample): on `[("lat", [NaN]), ("lon", [5])]` the chosen
latitude column has zero valid values after coercion, yet the resolver
returns the assignment `(some "lat", some "lon")`, not NotFound. -/
theorem c2_zero_valid_cex :
    find_latlon_cols [("lat", [none]), ("lon", [some 5])] =
      (some "lat", some "lon") ∧
    dropna [none] = [] ∧
    find_latlon_cols [("lat", [none]), ("lon", [some 5])] ≠ (none, none) :=
  ⟨by decide, by decide, by decide⟩

/-- C2 (amended): when, after coercion, either chosen candidate column has
zero valid values, the guard of line 43 fails and the resolver returns the
naive first-candidate pair `(lat0, lon0)` unswapped — not NotFound. -/
theorem c2_zero_valid_naive {df : Table} {lat lon : String}
    {latRaw lonRaw : List Cell}
    (h1 : (detectCandidates (columns df)).1.head? = some lat)
    (h2 : (detectCandidates (columns df)).2.head? = some lon)
    (hga : getCol df lat = some latRaw)
    (hgb : getCol df lon = some lonRaw)
    (hz : dropna latRaw = [] ∨ dropna lonRaw = []) :
    find_latlon_cols df = (some lat, some lon) := by
  have hstage : swapStage df lat lon = some (some lat, some lon) := by
    simp only [swapStage, hga, hgb]
    rcases hz with hz | hz <;> simp [swapDecision, hz]
  exact find_eq_of_swapStage h1 h2 hstage

/-- C2 witness: instantiates the amended theorem on the counterexample
table. -/
theorem c2_zero_valid_naive_witness :
    find_latlon_cols [("lat", [none]), ("lon", [some 5])] =
      (some "lat", some "lon") :=
  @c2_zero_valid_naive [("lat", [none]), ("lon", [some 5])] "lat" "lon"
    [none] [some 5] (by decide) (by decide) (by decide) (by decide)
    (Or.inl (by decide))

/-- C3 (counterexample): on columns `lat = [100]`, `lon = [200]` the
`suspect_swap` hint fires but the resolver's §4.2 swap rule does not: the
two predicates are not equal. -/
theorem c3_hint_rule_cex :
    suspect_swap [some 100] [some 200] = true ∧
    swapRule (fracBetween (dropna [some 100]) (-90) 90)
      (fracBetween (dropna [some 200]) (-90) 90) = false :=
  ⟨by decide, by decide⟩

/-- C3 (amended): the hint follows its own rule, distinct from §4.2:
`(frac lat in [-90,90] < 0.6 ∧ frac lon in [-180,180] < 0.6) ∨
 (mean |lat| > mean |lon| ∧ frac lon in [-90,90] > 0.6)`, fractions over all
rows (missing counted as out of range), means over valid values only. -/
theorem c3_hint_formula {latCol lonCol : List Cell}
    (h1 : latCol ≠ []) (h2 : lonCol ≠ []) :
    (suspect_swap latCol lonCol = true ↔
      ((fracBetweenAll latCol (-90) 90 < threshold ∧
        fracBetweenAll lonCol (-180) 180 < threshold) ∨
       (absMean latCol > absMean lonCol ∧
        fracBetweenAll lonCol (-90) 90 > threshold))) := by
  simp [suspect_swap]

/-- C3 witness: instantiates the amended theorem on the counterexample
columns. -/
theorem c3_hint_formula_witness :
    ([some (100 : ℚ)] : List Cell) ≠ [] ∧ ([some (200 : ℚ)] : List Cell) ≠ [] ∧
    (suspect_swap [some 100] [some 200] = true ↔
      ((fracBetweenAll [some 100] (-90) 90 < threshold ∧
        fracBetweenAll [some 200] (-180) 180 < threshold) ∨
       (absMean [some 100] > absMean [some 200] ∧
        fracBetweenAll [some 200] (-90) 90 > threshold))) :=
  ⟨by decide, by decide, c3_hint_formula (by decide) (by decide)⟩

/-- C4: when both candidate lists are non-empty, both chosen columns are
uniquely selectable and both have at least one valid numeric value after
coercion, the resolver returns `(lon0, lat0)` exactly when the §4.2 rule
holds of the two latitude-range fractions over the non-missing values, and
`(lat0, lon0)` otherwise. -/
theorem c4_swap_decision {df : Table} {lat lon : String}
    {latRaw lonRaw : List Cell}
    (h1 : (detectCandidates (columns df)).1.head? = some lat)
    (h2 : (detectCandidates (columns df)).2.head? = some lon)
    (hga : getCol df lat = some latRaw)
    (hgb : getCol df lon = some lonRaw)
    (ha : dropna latRaw ≠ []) (hb : dropna lonRaw ≠ []) :
    find_latlon_cols df =
      if swapRule (fracBetween (dropna latRaw) (-90) 90)
          (fracBetween (dropna lonRaw) (-90) 90)
      then (some lon, some lat) else (some lat, some lon) := by
  have hstage : swapStage df lat lon =
      some (if swapRule (fracBetween (dropna latRaw) (-90) 90)
          (fracBetween (dropna lonRaw) (-90) 90)
        then (some lon, some lat) else (some lat, some lon)) := by
    simp only [swapStage, hga, hgb]
    simp [swapDecision, List.isEmpty_eq_false.mpr ha, List.isEmpty_eq_false.mpr hb]
  exact find_eq_of_swapStage h1 h2 hstage

/-- C4 witness: a concrete table where the rule fires and the resolver swaps. -/
theorem c4_swap_decision_witness :
    (find_latlon_cols [("lat", [some 100]), ("lon", [some 50])] =
      if swapRule (fracBetween (dropna [some 100]) (-90) 90)
          (fracBetween (dropna [some 50]) (-90) 90)
      then (some "lon", some "lat") else (some "lat", some "lon")) ∧
    find_latlon_cols [("lat", [some 100]), ("lon", [some 50])] =
      (some "lon", some "lat") :=
  ⟨@c4_swap_decision [("lat", [some 100]), ("lon", [some 50])] "lat" "lon"
      [some 100] [some 50] (by decide) (by decide) (by decide) (by decide)
      (by decide) (by decide),
   by decide⟩

/-- C5 (counterexample): the header `"lat_lon"` contains both `"lat"` and
`"lon"`, so when both roles reach the substring fallback it becomes a
candidate for both roles in one detection pass. -/
theorem c5_dual_role_cex :
    "lat_lon" ∈ (detectCandidates ["lat_lon"]).1 ∧
    "lat_lon" ∈ (detectCandidates ["lat_lon"]).2 :=
  ⟨by decide, by decide⟩

/-- C5 (amended): in the exact-match stage the two keyword sets are disjoint,
so no column is an exact candidate for both roles; only the substring
fallback can assign one column to both roles. -/
theorem c5_exact_stage_disjoint {hs : List String} {x : String}
    (hx : x ∈ (detectLoop hs).1) : x ∉ (detectLoop hs).2 := by
  intro hy
  rw [detectLoop_eq] at hx hy
  rcases List.mem_filter.mp hx with ⟨-, hpx⟩
  rcases List.mem_filter.mp hy with ⟨-, hpy⟩
  have hmem : normHeader x ∈ latKeywords := List.elem_iff.mp hpx
  simp only [latKeywords, List.mem_cons, List.not_mem_nil, or_false] at hmem
  rcases hmem with hm | hm | hm | hm | hm | hm | hm <;>
    (rw [hm] at hpy; exact absurd hpy (by decide))

/-- C5 witness: instantiates the amended theorem at the exact-match header
`"y"`. -/
theorem c5_exact_stage_disjoint_witness :
    "y" ∈ (detectLoop ["y"]).1 ∧ "y" ∉ (detectLoop ["y"]).2 :=
  ⟨by decide, c5_exact_stage_disjoint (by decide)⟩

/-- C6: the code's one-pass detection with per-role fallback equals the
spec's staged per-role description (normalise, exact keyword filter, then
substring fallback only when the exact stage found nothing for that role). -/
theorem c6_detect_spec_equiv (hs : List String) :
    detectCandidates hs = detectCandidatesSpec hs := by
  simp [detectCandidates, detectCandidatesSpec, detectLoop_eq, fallbackLatCands,
    fallbackLonCands]

/-- C7: for equal-length coordinate columns, surviving points plus excluded
rows equal the input row count, and the exclusion count is the difference of
the two lengths. -/
theorem c7_row_count_conservation {latCol lonCol : List Cell}
    (h : latCol.length = lonCol.length) :
    (normalizePoints latCol lonCol).length + droppedRows latCol lonCol =
      latCol.length ∧
    droppedRows latCol lonCol =
      latCol.length - (normalizePoints latCol lonCol).length := by
  have aux : ∀ (a b : List Cell),
      (normalizePoints a b).length + droppedRows a b = (a.zip b).length := by
    intro a
    induction a with
    | nil => intro b; rfl
    | cons x xs ih =>
      intro b
      cases b with
      | nil => rfl
      | cons y ys =>
        have hxy := ih ys
        rcases x with _ | xv <;> rcases y with _ | yv
        · show (normalizePoints xs ys).length + (droppedRows xs ys + 1) =
            (xs.zip ys).length + 1
          omega
        · show (normalizePoints xs ys).length + (droppedRows xs ys + 1) =
            (xs.zip ys).length + 1
          omega
        · show (normalizePoints xs ys).length + (droppedRows xs ys + 1) =
            (xs.zip ys).length + 1
          omega
        · show ((normalizePoints xs ys).length + 1) + droppedRows xs ys =
            (xs.zip ys).length + 1
          omega
  have hzip : ∀ (a b : List Cell), a.length = b.length →
      (a.zip b).length = a.length := by
    intro a
    induction a with
    | nil => intro b _; rfl
    | cons x xs ih =>
      intro b hb
      cases b with
      | nil => simp at hb
      | cons y ys =>
        have := ih ys (by simpa using hb)
        show (xs.zip ys).length + 1 = xs.length + 1
        omega
  have e1 := aux latCol lonCol
  have e2 := hzip latCol lonCol h
  exact ⟨by omega, by omega⟩

/-- C7 witness: a two-row table with one coercion failure. -/
theorem c7_row_count_conservation_witness :
    ([some (1 : ℚ), none] : List Cell).length =
      ([some (2 : ℚ), some 3] : List Cell).length ∧
    ((normalizePoints [some 1, none] [some 2, some 3]).length +
        droppedRows [some 1, none] [some 2, some 3] =
      ([some (1 : ℚ), none] : List Cell).length ∧
    droppedRows [some 1, none] [some 2, some 3] =
      ([some (1 : ℚ), none] : List Cell).length -
        (normalizePoints [some 1, none] [some 2, some 3]).length) :=
  ⟨by decide, @c7_row_count_conservation [some 1, none] [some 2, some 3] (by decide)⟩

/-- C8: the manual flip of lines 152-155 is an involution: applying the
override twice with the same checkbox value returns the original
assignment. -/
theorem c8_flip_involution (b : Bool) (a : String × String) :
    applyFlip b (applyFlip b a) = a := by
  cases b <;> rfl

set_option maxRecDepth 16000 in
/-- C9 (counterexample): with headers `["x"]` only latitude is missing and
with `["y"]` only longitude is missing, yet both error messages are the same
fixed template around the header list — the message does not identify which
role is missing. -/
theorem c9_missing_role_cex :
    find_latlon_cols [("x", [some 1])] = (none, some "x") ∧
    find_latlon_cols [("y", [some 1])] = (some "y", none) ∧
    deathDetect [("x", [some 1])] = Except.error
      ("Death CSV: Could not find latitude/longitude columns.\nMake sure columns are named like: lat/latitude/X coordinate/Y coordinate/longitude.\n\nDetected columns: " ++ "x") ∧
    deathDetect [("y", [some 1])] = Except.error
      ("Death CSV: Could not find latitude/longitude columns.\nMake sure columns are named like: lat/latitude/X coordinate/Y coordinate/longitude.\n\nDetected columns: " ++ "y") :=
  ⟨by decide, by decide, rfl, rfl⟩

/-- C9 (amended): when either candidate list is empty after both stages, the
result carries no assignment — the pipeline stops with the missing-column
error — and the error message lists every available header; the message text
is a fixed template naming both roles rather than the specific missing
role. -/
theorem c9_missing_error_lists_headers {df : Table}
    (hempty : (detectCandidates (columns df)).1 = [] ∨
      (detectCandidates (columns df)).2 = []) :
    deathDetect df = Except.error (missingColsMsg (columns df)) ∧
    ∀ h, h ∈ columns df → strContains (missingColsMsg (columns df)) h = true := by
  constructor
  · rcases hempty with he | he
    · cases hlo : (detectCandidates (columns df)).2.head? <;>
        simp [deathDetect, find_latlon_cols, he, hlo, findFromCands]
    · cases hla : (detectCandidates (columns df)).1.head? <;>
        simp [deathDetect, find_latlon_cols, he, hla, findFromCands]
  · intro h hm
    exact missingColsMsg_contains hm

/-- C9 witness: instantiates the amended theorem on a table with a single
non-coordinate header. -/
theorem c9_missing_error_lists_headers_witness :
    deathDetect [("foo", [some 1])] =
      Except.error (missingColsMsg (columns [("foo", [some 1])])) ∧
    strContains (missingColsMsg (columns [("foo", [some 1])])) "foo" = true :=
  ⟨(c9_missing_error_lists_headers (Or.inl (by decide))).1,
   (c9_missing_error_lists_headers (Or.inl (by decide))).2 "foo" (by decide)⟩

/-- C10: `find_latlon_cols` is total (it is a Lean function), and whenever
the numeric swap-detection stage raises — modelled by `swapStage` returning
`none`, as happens when a chosen label is missing or duplicated — the
`except` branch returns the naive first-candidate pair unswapped instead of
propagating the exception. -/
theorem c10_exception_fallback {df : Table} {lat lon : String}
    (h1 : (detectCandidates (columns df)).1.head? = some lat)
    (h2 : (detectCandidates (columns df)).2.head? = some lon)
    (hx : swapStage df lat lon = none) :
    find_latlon_cols df = (some lat, some lon) :=
  find_eq_naive_of_stage_none h1 h2 hx

/-- C10 witness: a table with a duplicated `"lat"` label, on which pandas
column selection raises inside the `try` block; the naive pair is returned. -/
theorem c10_exception_fallback_witness :
    swapStage [("lat", [some 1]), ("lat", [some 2]), ("lon", [some 3])]
      "lat" "lon" = none ∧
    find_latlon_cols [("lat", [some 1]), ("lat", [some 2]), ("lon", [some 3])] =
      (some "lat", some "lon") :=
  ⟨by decide,
   @c10_exception_fallback [("lat", [some 1]), ("lat", [some 2]), ("lon", [some 3])]
     "lat" "lon" (by decide) (by decide) (by decide)⟩

end App

